import Mathlib

/-!  Shallow embedding of the car-insurance image-validation backend
(`backend/app.py`): the validation classifier, the upload endpoint with its
count-based completion rule, and the report generator.  External collaborators
(the vision-inference model, the filesystem, the id generator and the clock)
are modelled as explicit parameters of the operations. -/

namespace AIModel

/-- Single-quote character, used when rendering Python exception messages. -/
def quoteChar : Char := Char.ofNat 39

/-- Substring test on character lists: does `n` occur contiguously inside the
second list?  This models the Python `in` operator on strings. -/
def hasInfix (n : List Char) : List Char → Bool
  | [] => n.isEmpty
  | c :: t => n.isPrefixOf (c :: t) || hasInfix n t

/-- Python `needle in hay` on strings. -/
def strContains (hay needle : String) : Bool := hasInfix needle.data hay.data

/-- ASCII lower-casing, modelling `str.lower` on the model responses. -/
def pyLower (s : String) : String := String.mk (s.data.map Char.toLower)

/-- The ASCII whitespace characters stripped by Python `str.strip()`. -/
def pyIsSpace (c : Char) : Bool :=
  c = ' ' || c = Char.ofNat 9 || c = Char.ofNat 10 || c = Char.ofNat 13 ||
    c = Char.ofNat 11 || c = Char.ofNat 12

/-- Python `str.strip()`: drop leading and trailing whitespace. -/
def pyStrip (s : String) : String :=
  String.mk (((s.data.dropWhile pyIsSpace).reverse.dropWhile pyIsSpace).reverse)

/-- Binary verdict with a human-readable reason: the dict returned by
`validate_image_with_ai`. -/
structure Verdict where
  valid : Bool
  reason : String
deriving DecidableEq

/-- The per-category prompt table of `validate_image_with_ai` (app.py 114-123). -/
def prompts : List (String × String) :=
  [("front", "Does this image clearly show the entire front of a vehicle? Check for: full view, no obstructions, good lighting."),
   ("back", "Does this image clearly show the entire rear of a vehicle? Check for: full view, no obstructions, visible license plate."),
   ("left", "Does this image show the complete left side of a vehicle? Check for: full side profile, no obstructions."),
   ("right", "Does this image show the complete right side of a vehicle? Check for: full side profile, no obstructions."),
   ("engine", "Does this image clearly show the engine compartment? Check for: clear view of engine components."),
   ("dashboard", "Does this image show the vehicle dashboard with visible odometer reading? Check for: clear numbers."),
   ("vin", "Does this image show a vehicle" ++ String.mk [quoteChar] ++ "s VIN plate with readable characters? Check for: all characters legible."),
   ("registration", "Does this image show a current vehicle registration document? Check for: readable text, current dates.")]

/-- Message of a Python `KeyError` on key `k`: `str(KeyError(k))` is the key in
single quotes. -/
def keyErrorMsg (k : String) : String := String.mk (quoteChar :: (k.data ++ [quoteChar]))

/-- Classification of an already-normalized model response (app.py 137-140). -/
def classifyContent (content : String) : Verdict :=
  { valid := strContains content "yes" || strContains content "valid"
    reason := if strContains content "no" || strContains content "invalid" then content
              else "Valid image" }

/-- The classifier `validate_image_with_ai` (app.py 112-142).  The
vision-inference collaborator (`ollama.chat` together with the extraction of
`response.message.content`) is modelled as a function `chat` from prompt and
image path to either the response text or the message of a raised exception.
Every exception inside the `try` block, including a failed prompt lookup, is
caught and converted into a fail-closed verdict. -/
def validate_image_with_ai (chat : String → String → Except String String)
    (image_path image_type : String) : Verdict :=
  match List.lookup image_type prompts with
  | none => { valid := false, reason := "Validation error: " ++ keyErrorMsg image_type }
  | some p =>
    match chat p image_path with
    | .error e => { valid := false, reason := "Validation error: " ++ e }
    | .ok raw => classifyContent (pyStrip (pyLower raw))

/-- Submission status: the `status` column only ever holds these two values. -/
inductive Status where
  | pending
  | complete
deriving DecidableEq

/-- A row of the `submissions` table; the primary key is kept separately as the
key of the association list. -/
structure SubmissionRow where
  user_id : String
  vehicle_make : String
  vehicle_model : String
  vehicle_year : Int
  status : Status
  created_at : String
deriving DecidableEq

/-- A row of the `submission_images` table. -/
structure ImageRow where
  id : String
  submission_id : String
  image_type : String
  image_path : String
  validation_result : String
  validation_reason : String
deriving DecidableEq

/-- One entry of the static required-category list. -/
structure Requirement where
  type : String
  label : String
  description : String
deriving DecidableEq

/-- The fixed 8-entry required-category list (app.py 100-109). -/
def IMAGE_REQUIREMENTS : List Requirement :=
  [⟨"front", "Front View", "Clear view of the front of the vehicle"⟩,
   ⟨"back", "Rear View", "Clear view of the rear of the vehicle"⟩,
   ⟨"left", "Left Side", "Side view showing the left side of the vehicle"⟩,
   ⟨"right", "Right Side", "Side view showing the right side of the vehicle"⟩,
   ⟨"engine", "Engine Bay", "Clear view of the engine compartment"⟩,
   ⟨"dashboard", "Dashboard", "Showing odometer reading"⟩,
   ⟨"vin", "VIN Plate", "Clear photo of the vehicle identification number"⟩,
   ⟨"registration", "Registration", "Current vehicle registration document"⟩]

/-- The category whitelist test of the upload endpoint (app.py 220). -/
def isKnownCategory (image_type : String) : Bool :=
  IMAGE_REQUIREMENTS.any (fun req => req.type == image_type)

/-- Abstract rendering of a generated PDF report: the three header lines and
one block (capitalized category, status label, notes line) per drawable image. -/
structure ReportDoc where
  header_id : String
  header_vehicle : String
  header_date : String
  blocks : List (String × String × String)
deriving DecidableEq

/-- Whole-system state: the database tables plus the uploads and reports
folders (paths mapped to contents). -/
structure SysState where
  submissions : List (String × SubmissionRow)
  images : List ImageRow
  files : List (String × List Nat)
  reports : List (String × ReportDoc)
deriving DecidableEq

/-- The state right after `init_db()` on a fresh database. -/
def initState : SysState := ⟨[], [], [], []⟩

/-- `SELECT COUNT(*) FROM submission_images WHERE submission_id = ?`. -/
def countImages (st : SysState) (sid : String) : Nat :=
  (st.images.filter (fun r => r.submission_id == sid)).length

/-- Outcome of an HTTP endpoint: a JSON payload, an `HTTPException` raised by
the handler, or an unhandled exception (which FastAPI surfaces as status 500). -/
inductive ApiResult (α : Type) where
  | ok (payload : α)
  | clientError (code : Nat) (detail : String)
  | serverError (msg : String)
deriving DecidableEq

/-- Whether an endpoint outcome is an `HTTPException` with a 4xx-style code. -/
def ApiResult.isClientError {α : Type} : ApiResult α → Bool
  | .clientError _ _ => true
  | _ => false

/-- Python `str.rfind` specialised to one character: index of the last
occurrence, `-1` when absent. -/
def pyRfind (c : Char) : List Char → Int
  | [] => -1
  | x :: xs =>
    let r := pyRfind c xs
    if 0 ≤ r then r + 1 else if x = c then 0 else -1

/-- Extension component of `os.path.splitext` under posix rules: everything
from the last dot of the base name, unless that dot is only preceded by dots
within the base name. -/
def splitextExt (p : String) : String :=
  let l := p.data
  let sepIndex := pyRfind (Char.ofNat 47) l
  let dotIndex := pyRfind (Char.ofNat 46) l
  if sepIndex < dotIndex then
    if ((l.take dotIndex.toNat).drop (sepIndex + 1).toNat).any (fun ch => ch ≠ Char.ofNat 46) then
      String.mk (l.drop dotIndex.toNat)
    else ""
  else ""

/-- The uploads folder (app.py 97). -/
def UPLOAD_FOLDER : String := "uploads"

/-- The stored file name `f"{submission_id}_{image_type}{file_ext}"` computed
at app.py 224-225. -/
def storedFilename (submission_id image_type original_filename : String) : String :=
  submission_id ++ "_" ++ image_type ++ splitextExt original_filename

/-- The stored file path `os.path.join(UPLOAD_FOLDER, filename)`. -/
def storedFilepath (submission_id image_type original_filename : String) : String :=
  UPLOAD_FOLDER ++ "/" ++ storedFilename submission_id image_type original_filename

/-- Overwriting write of one file (`open(filepath, "wb")` followed by a full
write): any previous contents at that path are replaced. -/
def writeFile (fs : List (String × List Nat)) (p : String) (b : List Nat) :
    List (String × List Nat) :=
  (p, b) :: fs.filter (fun e => !(e.1 == p))

/-- Response payload of `POST /api/submissions`. -/
structure CreateResponse where
  id : String
  status : String
  required_images : List Requirement
deriving DecidableEq

/-- Response payload of the upload endpoint. -/
structure UploadResponse where
  id : String
  valid : Bool
  reason : String
  image_url : String
deriving DecidableEq

/-- The endpoint `create_submission` (app.py 192-210).  `submission_id` and
`created_at` stand for the values produced by `uuid.uuid4()` and
`datetime.now()`; inserting a duplicate primary key raises
`sqlite3.IntegrityError`, which surfaces as an unhandled 500. -/
def create_submission (st : SysState) (token vehicle_make vehicle_model : String)
    (vehicle_year : Int) (submission_id created_at : String) :
    SysState × ApiResult CreateResponse :=
  if st.submissions.any (fun p => p.1 == submission_id) then
    (st, .serverError "UNIQUE constraint failed: submissions.id")
  else
    ({ st with submissions :=
        st.submissions ++ [(submission_id,
          ⟨token, vehicle_make, vehicle_model, vehicle_year, .pending, created_at⟩)] },
      .ok ⟨submission_id, "pending", IMAGE_REQUIREMENTS⟩)

/-- The `UPDATE submissions SET status = complete` payload of app.py 250-252. -/
def markComplete (r : SubmissionRow) : SubmissionRow := { r with status := Status.complete }

/-- The `INSERT INTO submission_images` of app.py 237-242: the row is appended,
with no uniqueness constraint on `(submission_id, image_type)`. -/
def recordImage (st : SysState) (row : ImageRow) : SysState :=
  { st with images := st.images ++ [row] }

/-- The completion recomputation of app.py 244-252: count all image rows of the
submission (the insert has already happened) and, when the count reaches the
required-category count, set the status of the matching submission row (if any)
to complete; otherwise leave the table untouched. -/
def recomputeStatus (st : SysState) (submission_id : String) : SysState :=
  if IMAGE_REQUIREMENTS.length ≤ countImages st submission_id then
    { st with submissions := st.submissions.map (fun p =>
        if p.1 == submission_id then (p.1, markComplete p.2) else p) }
  else st

/-- The endpoint `upload_image` (app.py 212-261).  `fsWrite` is the outcome of
persisting the uploaded bytes: the write either fully succeeds or raises before
any database row is written.  `chat` is the vision-inference collaborator and
`image_id` stands for the generated `uuid.uuid4()`.  An exception inside the
database block rolls the transaction back (the sqlite connection context
manager) and surfaces as an unhandled 500. -/
def upload_image (st : SysState) (submission_id image_type : String)
    (fileBytes : List Nat) (original_filename : String)
    (fsWrite : Except String Unit)
    (chat : String → String → Except String String)
    (image_id : String) : SysState × ApiResult UploadResponse :=
  if !isKnownCategory image_type then
    (st, .clientError 400 "Invalid image type")
  else
    let filename := storedFilename submission_id image_type original_filename
    let filepath := UPLOAD_FOLDER ++ "/" ++ filename
    match fsWrite with
    | .error e => (st, .serverError e)
    | .ok _ =>
      let st1 : SysState := { st with files := writeFile st.files filepath fileBytes }
      let validation := validate_image_with_ai chat filepath image_type
      if st1.images.any (fun r => r.id == image_id) then
        (st1, .serverError "UNIQUE constraint failed: submission_images.id")
      else
        let row : ImageRow :=
          ⟨image_id, submission_id, image_type, filepath,
            if validation.valid then "yes" else "no", validation.reason⟩
        (recomputeStatus (recordImage st1 row) submission_id,
          .ok ⟨image_id, validation.valid, validation.reason, "/uploads/" ++ filename⟩)

/-- Python `str.capitalize`. -/
def pyCapitalize (s : String) : String :=
  match s.data with
  | [] => ""
  | c :: t => String.mk (c.toUpper :: t.map Char.toLower)

/-- The helper `generate_pdf_report` (app.py 144-189).  When the submission id
matches no row, `fetchone()` returns `None` and the header line that reads
`submission["vehicle_year"]` raises a `TypeError` before the canvas is saved.
A block is rendered for each image whose stored file is readable (the
`try`/`except: continue` around `ImageReader`); otherwise the block is
skipped. -/
def generate_pdf_report (st : SysState) (submission_id : String) :
    SysState × Except String String :=
  let images := st.images.filter (fun r => r.submission_id == submission_id)
  match List.lookup submission_id st.submissions with
  | none => (st, .error "TypeError: NoneType object is not subscriptable")
  | some s =>
    let filename := "reports/" ++ submission_id ++ ".pdf"
    let doc : ReportDoc :=
      { header_id := "Submission ID: " ++ submission_id
        header_vehicle := "Vehicle: " ++ toString s.vehicle_year ++ " " ++
          s.vehicle_make ++ " " ++ s.vehicle_model
        header_date := "Submission Date: " ++ s.created_at
        blocks := (images.filter (fun r => (List.lookup r.image_path st.files).isSome)).map
          (fun r => (pyCapitalize r.image_type,
            if r.validation_result == "yes" then "Status: Valid" else "Status: Invalid",
            "Notes: " ++ r.validation_reason)) }
    ({ st with reports := (filename, doc) :: st.reports.filter (fun e => !(e.1 == filename)) },
      .ok filename)

/-- The endpoint `get_submission_report` (app.py 263-267): it calls
`generate_pdf_report` with no exception handling, so a raised exception
surfaces as an unhandled 500 while a produced path is returned as a file
response. -/
def get_submission_report (st : SysState) (submission_id : String) :
    SysState × ApiResult String :=
  match generate_pdf_report st submission_id with
  | (st2, .ok path) => (st2, .ok path)
  | (st2, .error e) => (st2, .serverError e)

/-- One request to the core API, with the nondeterministic collaborators
(generated ids, clock, filesystem outcome, vision model) frozen as data. -/
inductive Op where
  | create (token vehicle_make vehicle_model : String) (vehicle_year : Int)
      (submission_id created_at : String)
  | upload (submission_id image_type : String) (fileBytes : List Nat)
      (original_filename : String) (fsWrite : Except String Unit)
      (chat : String → String → Except String String) (image_id : String)
  | report (submission_id : String)

/-- State transformation performed by one request. -/
def applyOp (op : Op) (st : SysState) : SysState :=
  match op with
  | .create tok mk md yr sid ca => (create_submission st tok mk md yr sid ca).1
  | .upload sid it b fn fsw chat iid => (upload_image st sid it b fn fsw chat iid).1
  | .report sid => (get_submission_report st sid).1

/-- States reachable from a fresh database.  The `create` step carries the
freshness of the generated `uuid.uuid4()`: the new id differs from every id the
system has seen, both existing submissions and submission references recorded
by earlier uploads. -/
inductive Reachable : SysState → Prop where
  | init : Reachable initState
  | create {st : SysState} (tok mk md : String) (yr : Int) (sid ca : String) :
      Reachable st →
      (∀ p ∈ st.submissions, p.1 ≠ sid) →
      (∀ r ∈ st.images, r.submission_id ≠ sid) →
      Reachable (create_submission st tok mk md yr sid ca).1
  | upload {st : SysState} (sid it : String) (b : List Nat) (fn : String)
      (fsw : Except String Unit) (chat : String → String → Except String String)
      (iid : String) :
      Reachable st → Reachable (upload_image st sid it b fn fsw chat iid).1
  | report {st : SysState} (sid : String) :
      Reachable st → Reachable (get_submission_report st sid).1

/-- The count-based completion invariant of the submission table: a stored
submission is complete exactly when at least `len(IMAGE_REQUIREMENTS)` image
rows reference it. -/
def CompletionInv (st : SysState) : Prop :=
  ∀ sid r, List.lookup sid st.submissions = some r →
    (r.status = Status.complete ↔ IMAGE_REQUIREMENTS.length ≤ countImages st sid)

/-- A vision collaborator that always answers "yes". -/
def chatYes : String → String → Except String String := fun _ _ => .ok "yes"

/-- Demo: one submission created on a fresh database. -/
def demoSt0 : SysState :=
  (create_submission initState "tok" "Toyota" "Corolla" 2020 "s1" "2024-01-01").1

/-- Demo: one upload of a front image to submission `s1`. -/
def demoUp (st : SysState) (iid : String) : SysState :=
  (upload_image st "s1" "front" [1, 2, 3] "img.jpg" (.ok ()) chatYes iid).1

/-- Demo: eight uploads, all to the single category `front`. -/
def demoSt8 : SysState :=
  demoUp (demoUp (demoUp (demoUp (demoUp (demoUp (demoUp (demoUp demoSt0
    "i1") "i2") "i3") "i4") "i5") "i6") "i7") "i8"

/-! ### Helper lemmas -/

theorem hasInfix_iff (n : List Char) (l : List Char) :
    hasInfix n l = true ↔ n <:+: l := by
  induction l with
  | nil =>
    simp [hasInfix, List.isEmpty_iff]
  | cons c t ih =>
    simp [hasInfix, List.infix_cons_iff, ih]

theorem strContains_iff (hay needle : String) :
    strContains hay needle = true ↔ needle.data <:+: hay.data := by
  simp [strContains, hasInfix_iff]

theorem lookup_append_some {β : Type} (a : String) (l₁ l₂ : List (String × β)) (b : β)
    (h : List.lookup a l₁ = some b) : List.lookup a (l₁ ++ l₂) = some b := by
  induction l₁ with
  | nil => exact absurd h (by simp)
  | cons hd t ih =>
    obtain ⟨k, v⟩ := hd
    rw [List.lookup_cons] at h
    rw [List.cons_append, List.lookup_cons]
    cases hak : a == k with
    | true => rw [hak] at h; exact h
    | false => rw [hak] at h; exact ih h

theorem lookup_append_none {β : Type} (a : String) (l₁ l₂ : List (String × β))
    (h : List.lookup a l₁ = none) : List.lookup a (l₁ ++ l₂) = List.lookup a l₂ := by
  induction l₁ with
  | nil => simp
  | cons hd t ih =>
    obtain ⟨k, v⟩ := hd
    rw [List.lookup_cons] at h
    rw [List.cons_append, List.lookup_cons]
    cases hak : a == k with
    | true => rw [hak] at h; exact absurd h (by simp)
    | false => rw [hak] at h; exact ih h

theorem lookup_eq_none_of_forall {β : Type} (a : String) (l : List (String × β))
    (h : ∀ p ∈ l, p.1 ≠ a) : List.lookup a l = none := by
  induction l with
  | nil => rfl
  | cons hd t ih =>
    have hne : hd.1 ≠ a := h hd (List.mem_cons_self hd t)
    obtain ⟨k, v⟩ := hd
    rw [List.lookup_cons]
    have hak : (a == k) = false := by
      apply beq_false_of_ne
      exact fun he => hne (by simp [he.symm])
    rw [hak]
    exact ih (fun p hp => h p (List.mem_cons_of_mem _ hp))

theorem forall_of_lookup_eq_none {β : Type} (a : String) (l : List (String × β))
    (h : List.lookup a l = none) : ∀ p ∈ l, p.1 ≠ a := by
  induction l with
  | nil => intro p hp; simp at hp
  | cons hd t ih =>
    obtain ⟨k, v⟩ := hd
    rw [List.lookup_cons] at h
    cases hak : a == k with
    | true => rw [hak] at h; exact absurd h (by simp)
    | false =>
      rw [hak] at h
      intro p hp
      rcases List.mem_cons.mp hp with hp | hp
      · subst hp
        intro he
        have hk : k = a := by simpa using he
        rw [hk] at hak
        simp at hak
      · exact ih h p hp

theorem lookup_map_markComplete (l : List (String × SubmissionRow)) (u a : String) :
    List.lookup a (l.map (fun p => if p.1 == u then (p.1, markComplete p.2) else p)) =
      (List.lookup a l).map (fun r => if a == u then markComplete r else r) := by
  induction l with
  | nil => rfl
  | cons hd t ih =>
    obtain ⟨k, v⟩ := hd
    rw [List.map_cons, List.lookup_cons]
    by_cases hku : (k == u) = true
    · rw [if_pos hku]
      rw [List.lookup_cons]
      cases hak : a == k with
      | true =>
        have hk : a = k := by simpa using hak
        have hau : (a == u) = true := by rw [hk]; exact hku
        simp [hau]
      | false => rw [ih]
    · rw [if_neg hku]
      rw [List.lookup_cons]
      cases hak : a == k with
      | true =>
        have hk : a = k := by simpa using hak
        have hau : (a == u) = false := by
          rw [hk]
          simpa using hku
        simp [hau]
      | false => rw [ih]

theorem map_markComplete_id (l : List (String × SubmissionRow)) (u : String)
    (h : ∀ p ∈ l, p.1 ≠ u) :
    l.map (fun p => if p.1 == u then (p.1, markComplete p.2) else p) = l := by
  induction l with
  | nil => rfl
  | cons hd t ih =>
    have hne : hd.1 ≠ u := h hd (List.mem_cons_self hd t)
    have hb : (hd.1 == u) = false := beq_false_of_ne hne
    rw [List.map_cons, if_neg (by simp [hb]), ih (fun p hp => h p (List.mem_cons_of_mem _ hp))]

theorem countImages_recordImage (st : SysState) (row : ImageRow) (a : String) :
    countImages (recordImage st row) a =
      countImages st a + (if row.submission_id == a then 1 else 0) := by
  by_cases h : row.submission_id == a <;>
    simp [countImages, recordImage, List.filter_append, h]

theorem countImages_recomputeStatus (st : SysState) (u a : String) :
    countImages (recomputeStatus st u) a = countImages st a := by
  unfold recomputeStatus
  split <;> simp [countImages]

theorem countImages_eq_zero_of_fresh (st : SysState) (sid : String)
    (h : ∀ r ∈ st.images, r.submission_id ≠ sid) : countImages st sid = 0 := by
  simp only [countImages, List.length_eq_zero, List.filter_eq_nil_iff]
  intro r hr
  simpa using h r hr

theorem report_preserves_tables (st : SysState) (sid : String) :
    (get_submission_report st sid).1.submissions = st.submissions ∧
      (get_submission_report st sid).1.images = st.images := by
  cases hl : List.lookup sid st.submissions <;>
    simp [get_submission_report, generate_pdf_report, hl]

theorem recordImage_submissions (st : SysState) (row : ImageRow) :
    (recordImage st row).submissions = st.submissions := rfl

theorem upload_image_eq_of_unknown (st : SysState) (sid it : String) (b : List Nat)
    (fn : String) (fsw : Except String Unit)
    (chat : String → String → Except String String) (iid : String)
    (h : isKnownCategory it = false) :
    upload_image st sid it b fn fsw chat iid = (st, .clientError 400 "Invalid image type") := by
  unfold upload_image
  rw [h]
  simp

theorem upload_image_eq_of_fsError (st : SysState) (sid it : String) (b : List Nat)
    (fn e : String) (chat : String → String → Except String String) (iid : String)
    (h : isKnownCategory it = true) :
    upload_image st sid it b fn (.error e) chat iid = (st, .serverError e) := by
  unfold upload_image
  rw [h]
  simp

theorem upload_image_eq_of_dup (st : SysState) (sid it : String) (b : List Nat)
    (fn : String) (chat : String → String → Except String String) (iid : String)
    (hk : isKnownCategory it = true)
    (hdup : st.images.any (fun r => r.id == iid) = true) :
    upload_image st sid it b fn (.ok ()) chat iid =
      ({ st with files := writeFile st.files (storedFilepath sid it fn) b },
        .serverError "UNIQUE constraint failed: submission_images.id") := by
  unfold upload_image
  rw [hk]
  simp [hdup, storedFilepath]

theorem upload_image_eq_of_fresh (st : SysState) (sid it : String) (b : List Nat)
    (fn : String) (chat : String → String → Except String String) (iid : String)
    (hk : isKnownCategory it = true)
    (hfresh : st.images.any (fun r => r.id == iid) = false) :
    upload_image st sid it b fn (.ok ()) chat iid =
      (recomputeStatus
        (recordImage { st with files := writeFile st.files (storedFilepath sid it fn) b }
          ⟨iid, sid, it, storedFilepath sid it fn,
            if (validate_image_with_ai chat (storedFilepath sid it fn) it).valid then "yes"
              else "no",
            (validate_image_with_ai chat (storedFilepath sid it fn) it).reason⟩) sid,
        .ok ⟨iid, (validate_image_with_ai chat (storedFilepath sid it fn) it).valid,
          (validate_image_with_ai chat (storedFilepath sid it fn) it).reason,
          "/uploads/" ++ storedFilename sid it fn⟩) := by
  unfold upload_image
  rw [hk]
  simp [hfresh, storedFilepath]

theorem inv_record_recompute (st : SysState) (row : ImageRow)
    (hinv : CompletionInv st) :
    CompletionInv (recomputeStatus (recordImage st row) row.submission_id) := by
  intro a r hr
  have hcnt : countImages (recomputeStatus (recordImage st row) row.submission_id) a =
      countImages (recordImage st row) a :=
    countImages_recomputeStatus _ _ a
  unfold recomputeStatus at hr
  by_cases hcond :
      IMAGE_REQUIREMENTS.length ≤ countImages (recordImage st row) row.submission_id
  · rw [if_pos hcond] at hr
    rw [recordImage_submissions, lookup_map_markComplete] at hr
    cases hl : List.lookup a st.submissions with
    | none => rw [hl] at hr; simp at hr
    | some r0 =>
      rw [hl] at hr
      simp only [Option.map_some'] at hr
      injection hr with hr2
      by_cases hau : (a == row.submission_id) = true
      · rw [if_pos hau] at hr2
        subst hr2
        have ha : a = row.submission_id := by simpa using hau
        apply iff_of_true rfl
        rw [hcnt, ha]
        exact hcond
      · rw [if_neg hau] at hr2
        subst hr2
        have hru : (row.submission_id == a) = false := by
          apply beq_false_of_ne
          intro he
          exact hau (by simp [he.symm])
        rw [hcnt, countImages_recordImage, hru]
        simpa using hinv a r0 hl
  · rw [if_neg hcond] at hr
    rw [recordImage_submissions] at hr
    rw [hcnt, countImages_recordImage]
    by_cases hau : a = row.submission_id
    · have hru : (row.submission_id == a) = true := by simp [hau.symm]
      rw [hru]
      apply iff_of_false
      · intro hc
        apply hcond
        have h1 := (hinv a r hr).mp hc
        rw [countImages_recordImage]
        rw [show (row.submission_id == row.submission_id) = true from by simp]
        rw [← hau]
        simp
        exact Nat.le_trans h1 (Nat.le_succ _)
      · intro hle
        apply hcond
        rw [countImages_recordImage]
        rw [show (row.submission_id == row.submission_id) = true from by simp]
        rw [← hau]
        simpa using hle
    · have hru : (row.submission_id == a) = false := by
        apply beq_false_of_ne
        exact fun he => hau he.symm
      rw [hru]
      simpa using hinv a r hr

theorem inv_upload (st : SysState) (sid it : String) (b : List Nat) (fn : String)
    (fsw : Except String Unit) (chat : String → String → Except String String)
    (iid : String) (hinv : CompletionInv st) :
    CompletionInv (upload_image st sid it b fn fsw chat iid).1 := by
  cases hk : isKnownCategory it with
  | false =>
    rw [upload_image_eq_of_unknown st sid it b fn fsw chat iid hk]
    exact hinv
  | true =>
    cases fsw with
    | error e =>
      rw [upload_image_eq_of_fsError st sid it b fn e chat iid hk]
      exact hinv
    | ok u =>
      cases u
      cases hdup : st.images.any (fun r => r.id == iid) with
      | true =>
        rw [upload_image_eq_of_dup st sid it b fn chat iid hk hdup]
        exact hinv
      | false =>
        rw [upload_image_eq_of_fresh st sid it b fn chat iid hk hdup]
        exact inv_record_recompute _ _ hinv

theorem inv_create (st : SysState) (tok vmk vmd : String) (yr : Int) (sid ca : String)
    (hf1 : ∀ p ∈ st.submissions, p.1 ≠ sid)
    (hf2 : ∀ r ∈ st.images, r.submission_id ≠ sid)
    (hinv : CompletionInv st) :
    CompletionInv (create_submission st tok vmk vmd yr sid ca).1 := by
  have hdup : st.submissions.any (fun p => p.1 == sid) = false := by
    rw [List.any_eq_false]
    intro p hp
    simpa using hf1 p hp
  unfold create_submission
  rw [hdup]
  simp only [Bool.false_eq_true, if_false]
  intro a r hr
  cases hl : List.lookup a st.submissions with
  | some r0 =>
    rw [lookup_append_some a _ _ r0 hl] at hr
    injection hr with hr2
    subst hr2
    exact hinv a r0 hl
  | none =>
    rw [lookup_append_none a _ _ hl, List.lookup_cons] at hr
    cases has : a == sid with
    | false => rw [has] at hr; simp at hr
    | true =>
      rw [has] at hr
      injection hr with hr2
      subst hr2
      apply iff_of_false
      · intro hc
        exact Status.noConfusion hc
      · have ha : a = sid := by simpa using has
        rw [ha]
        intro hle
        rw [show countImages ({ st with submissions :=
            st.submissions ++ [(sid, ⟨tok, vmk, vmd, yr, Status.pending, ca⟩)] }) sid =
          countImages st sid from rfl] at hle
        rw [countImages_eq_zero_of_fresh st sid hf2] at hle
        exact absurd hle (by decide)

theorem inv_report (st : SysState) (sid : String) (hinv : CompletionInv st) :
    CompletionInv (get_submission_report st sid).1 := by
  intro a r hr
  obtain ⟨hs, hi⟩ := report_preserves_tables st sid
  rw [hs] at hr
  have hc : countImages (get_submission_report st sid).1 a = countImages st a := by
    unfold countImages
    rw [hi]
  rw [hc]
  exact hinv a r hr

theorem inv_reachable (st : SysState) (h : Reachable st) : CompletionInv st := by
  induction h with
  | init => intro a r hr; simp [initState] at hr
  | create tok vmk vmd yr sid ca _ hf1 hf2 ih => exact inv_create _ tok vmk vmd yr sid ca hf1 hf2 ih
  | upload sid it b fn fsw chat iid _ ih => exact inv_upload _ sid it b fn fsw chat iid ih
  | report sid _ ih => exact inv_report _ sid ih

theorem prompts_lookup_of_known (it : String) (h : isKnownCategory it = true) :
    ∃ p, List.lookup it prompts = some p := by
  unfold isKnownCategory at h
  rw [List.any_eq_true] at h
  obtain ⟨req, hmem, heq⟩ := h
  simp only [IMAGE_REQUIREMENTS, List.mem_cons, List.not_mem_nil, or_false] at hmem
  rcases hmem with rfl | rfl | rfl | rfl | rfl | rfl | rfl | rfl <;>
    · have ht := eq_of_beq heq
      subst ht
      exact ⟨_, rfl⟩

theorem classifyContent_valid (c : String) :
    (classifyContent c).valid = true ↔
      ("yes".data <:+: c.data ∨ "valid".data <:+: c.data) := by
  simp [classifyContent, strContains_iff]

theorem classifyContent_reason (c : String) :
    (classifyContent c).reason =
      if ("no".data <:+: c.data ∨ "invalid".data <:+: c.data) then c else "Valid image" := by
  unfold classifyContent
  by_cases h : ("no".data <:+: c.data ∨ "invalid".data <:+: c.data)
  · rw [if_pos h]
    have hb : (strContains c "no" || strContains c "invalid") = true := by
      rw [Bool.or_eq_true, strContains_iff, strContains_iff]
      exact h
    simp [hb]
  · rw [if_neg h]
    have hb : (strContains c "no" || strContains c "invalid") = false := by
      rw [← Bool.not_eq_true, Bool.or_eq_true, strContains_iff, strContains_iff]
      exact h
    simp [hb]

theorem recordImage_images (st : SysState) (row : ImageRow) :
    (recordImage st row).images = st.images ++ [row] := rfl

theorem recordImage_files (st : SysState) (row : ImageRow) :
    (recordImage st row).files = st.files := rfl

theorem recomputeStatus_images (st : SysState) (u : String) :
    (recomputeStatus st u).images = st.images := by
  unfold recomputeStatus
  split <;> rfl

theorem recomputeStatus_files (st : SysState) (u : String) :
    (recomputeStatus st u).files = st.files := by
  unfold recomputeStatus
  split <;> rfl

theorem recomputeStatus_submissions_of_missing (st : SysState) (u : String)
    (h : List.lookup u st.submissions = none) :
    (recomputeStatus st u).submissions = st.submissions := by
  unfold recomputeStatus
  split
  · exact map_markComplete_id st.submissions u (forall_of_lookup_eq_none u st.submissions h)
  · rfl

theorem lookup_writeFile_self (fs : List (String × List Nat)) (p : String) (b : List Nat) :
    List.lookup p (writeFile fs p b) = some b := by
  simp [writeFile, List.lookup_cons]

theorem lookup_recomputeStatus_complete (st : SysState) (u a : String) (r : SubmissionRow)
    (hr : List.lookup a st.submissions = some r) (hc : r.status = Status.complete) :
    ∃ r2, List.lookup a (recomputeStatus st u).submissions = some r2 ∧
      r2.status = Status.complete := by
  unfold recomputeStatus
  split
  · show ∃ r2, List.lookup a (st.submissions.map (fun p =>
        if p.1 == u then (p.1, markComplete p.2) else p)) = some r2 ∧
      r2.status = Status.complete
    rw [lookup_map_markComplete, hr]
    simp only [Option.map_some']
    refine ⟨_, rfl, ?_⟩
    by_cases h2 : (a == u) = true
    · rw [if_pos h2]
      rfl
    · rw [if_neg h2]
      exact hc
  · exact ⟨r, hr, hc⟩

/-! ### Claim theorems -/

/-- C1: in every reachable state (in particular after any upload event) a
stored submission has status complete exactly when the number of
SubmissionImage rows referencing it is at least the number of required
categories (8), with no constraint on which categories those rows cover or on
their validity. -/
theorem submission_complete_iff_count (st : SysState) (h : Reachable st)
    (sid : String) (r : SubmissionRow)
    (hr : List.lookup sid st.submissions = some r) :
    r.status = Status.complete ↔ 8 ≤ countImages st sid := by
  have h8 : IMAGE_REQUIREMENTS.length = 8 := rfl
  have hi := inv_reachable st h sid r hr
  rwa [h8] at hi

/-- Witness for C1: after eight uploads all to the single category `front`, the
demo submission is complete with exactly eight image rows. -/
theorem submission_complete_iff_count_witness :
    ∃ r : SubmissionRow, List.lookup "s1" demoSt8.submissions = some r ∧
      r.status = Status.complete ∧ countImages demoSt8 "s1" = 8 := by
  have h0 : Reachable initState := Reachable.init
  have h1 : Reachable demoSt0 :=
    Reachable.create "tok" "Toyota" "Corolla" 2020 "s1" "2024-01-01" h0
      (by intro p hp; exact absurd hp (List.not_mem_nil p))
      (by intro r hr; exact absurd hr (List.not_mem_nil r))
  have h2 : Reachable (demoUp demoSt0 "i1") :=
    Reachable.upload _ _ _ _ _ _ _ h1
  have h3 : Reachable (demoUp (demoUp demoSt0 "i1") "i2") :=
    Reachable.upload _ _ _ _ _ _ _ h2
  have h4 : Reachable (demoUp (demoUp (demoUp demoSt0 "i1") "i2") "i3") :=
    Reachable.upload _ _ _ _ _ _ _ h3
  have h5 : Reachable (demoUp (demoUp (demoUp (demoUp demoSt0 "i1") "i2") "i3") "i4") :=
    Reachable.upload _ _ _ _ _ _ _ h4
  have h6 : Reachable (demoUp (demoUp (demoUp (demoUp (demoUp demoSt0
      "i1") "i2") "i3") "i4") "i5") :=
    Reachable.upload _ _ _ _ _ _ _ h5
  have h7 : Reachable (demoUp (demoUp (demoUp (demoUp (demoUp (demoUp demoSt0
      "i1") "i2") "i3") "i4") "i5") "i6") :=
    Reachable.upload _ _ _ _ _ _ _ h6
  have h8 : Reachable (demoUp (demoUp (demoUp (demoUp (demoUp (demoUp (demoUp demoSt0
      "i1") "i2") "i3") "i4") "i5") "i6") "i7") :=
    Reachable.upload _ _ _ _ _ _ _ h7
  have h9 : Reachable demoSt8 :=
    Reachable.upload _ _ _ _ _ _ _ h8
  have hlook : List.lookup "s1" demoSt8.submissions =
      some ⟨"tok", "Toyota", "Corolla", 2020, Status.complete, "2024-01-01"⟩ := by decide
  refine ⟨_, hlook, ?_, by decide⟩
  exact (submission_complete_iff_count demoSt8 h9 "s1" _ hlook).mpr (by decide)

/-- C2: on a successful model response the classifier normalizes the text
(lower-case, strip) and returns valid exactly when "yes" or "valid" occurs as a
substring; the reason is the full normalized text when "no" or "invalid"
occurs as a substring and the literal "Valid image" otherwise; in particular a
text containing "invalid" is classified valid. -/
theorem classifier_substring_rule (raw image_path image_type : String)
    (chat : String → String → Except String String)
    (hk : isKnownCategory image_type = true)
    (hchat : ∀ p x, chat p x = Except.ok raw) :
    ((validate_image_with_ai chat image_path image_type).valid = true ↔
      ("yes".data <:+: (pyStrip (pyLower raw)).data ∨
        "valid".data <:+: (pyStrip (pyLower raw)).data)) ∧
    ((validate_image_with_ai chat image_path image_type).reason =
      if ("no".data <:+: (pyStrip (pyLower raw)).data ∨
          "invalid".data <:+: (pyStrip (pyLower raw)).data)
        then pyStrip (pyLower raw) else "Valid image") ∧
    ("invalid".data <:+: (pyStrip (pyLower raw)).data →
      (validate_image_with_ai chat image_path image_type).valid = true) := by
  obtain ⟨p, hp⟩ := prompts_lookup_of_known image_type hk
  have hv : validate_image_with_ai chat image_path image_type =
      classifyContent (pyStrip (pyLower raw)) := by
    unfold validate_image_with_ai
    rw [hp]
    simp [hchat]
  rw [hv, classifyContent_valid, classifyContent_reason]
  refine ⟨Iff.rfl, rfl, ?_⟩
  intro hi
  right
  exact List.IsInfix.trans (by decide) hi

/-- Witness for C2: the response "invalid image" is classified valid (it
contains "valid") with the full lowercase text as reason. -/
theorem classifier_substring_rule_witness :
    isKnownCategory "front" = true ∧
    (validate_image_with_ai (fun _ _ => Except.ok "invalid image") "p" "front").valid = true ∧
    (validate_image_with_ai (fun _ _ => Except.ok "invalid image") "p" "front").reason =
      "invalid image" := by
  have h := classifier_substring_rule "invalid image" "p" "front"
    (fun _ _ => Except.ok "invalid image") (by decide) (fun _ _ => rfl)
  refine ⟨by decide, h.2.2 (by decide), ?_⟩
  rw [h.2.1]
  decide

/-- C3: every failure of the vision-inference collaborator is caught and
converted into the verdict `valid = false`, reason `"Validation error: "`
followed by the failure message; the classifier is a total function and never
propagates the failure. -/
theorem classifier_fail_closed (chat : String → String → Except String String)
    (image_path image_type p e : String)
    (hp : List.lookup image_type prompts = some p)
    (hchat : chat p image_path = Except.error e) :
    validate_image_with_ai chat image_path image_type =
      ⟨false, "Validation error: " ++ e⟩ := by
  unfold validate_image_with_ai
  rw [hp]
  simp [hchat]

/-- Witness for C3: a collaborator failing with "model not found" yields the
fail-closed verdict. -/
theorem classifier_fail_closed_witness :
    validate_image_with_ai (fun _ _ => Except.error "model not found") "p" "front" =
      ⟨false, "Validation error: model not found"⟩ :=
  classifier_fail_closed (fun _ _ => Except.error "model not found") "p" "front"
    "Does this image clearly show the entire front of a vehicle? Check for: full view, no obstructions, good lighting."
    "model not found" rfl rfl

/-- C4: an upload naming an unknown category is rejected with the 400
client error "Invalid image type" and the state is completely unchanged (no
file written, no row inserted), for every write outcome and every classifier
collaborator (so neither is ever consulted). -/
theorem upload_unknown_category_rejected (st : SysState) (sid it : String)
    (b : List Nat) (fn : String) (fsw : Except String Unit)
    (chat : String → String → Except String String) (iid : String)
    (h : isKnownCategory it = false) :
    upload_image st sid it b fn fsw chat iid = (st, .clientError 400 "Invalid image type") :=
  upload_image_eq_of_unknown st sid it b fn fsw chat iid h

/-- Witness for C4: uploading a `windshield` image is rejected unchanged. -/
theorem upload_unknown_category_rejected_witness :
    upload_image demoSt0 "s1" "windshield" [1] "a.jpg" (Except.ok ()) chatYes "i9" =
      (demoSt0, .clientError 400 "Invalid image type") :=
  upload_unknown_category_rejected demoSt0 "s1" "windshield" [1] "a.jpg" (Except.ok ())
    chatYes "i9" (by decide)

/-- C5 (behavior at the failing input): requesting the report for a submission
id with no matching row does fail, but as an unhandled exception (the
`TypeError` raised when the missing row is subscripted), surfaced as a 500
server error and not as a distinct not-found client error. -/
theorem report_missing_submission_server_error (st : SysState) (sid : String)
    (h : List.lookup sid st.submissions = none) :
    (get_submission_report st sid).2 =
      .serverError "TypeError: NoneType object is not subscriptable" ∧
    (get_submission_report st sid).2.isClientError = false ∧
    (get_submission_report st sid).1 = st := by
  simp [get_submission_report, generate_pdf_report, h, ApiResult.isClientError]

/-- Witness for C5: on an empty database the report request for `ghost` ends
in the unhandled-TypeError server error. -/
theorem report_missing_submission_server_error_witness :
    (get_submission_report initState "ghost").2 =
      .serverError "TypeError: NoneType object is not subscriptable" ∧
    (get_submission_report initState "ghost").2.isClientError = false ∧
    (get_submission_report initState "ghost").1 = initState :=
  report_missing_submission_server_error initState "ghost" rfl

/-- C6: no operation of the core ever moves a submission out of the complete
status: whatever request is applied next, a submission stored with status
complete is still stored with status complete afterwards. -/
theorem complete_status_terminal (op : Op) (st : SysState) (sid : String)
    (r : SubmissionRow) (hr : List.lookup sid st.submissions = some r)
    (hc : r.status = Status.complete) :
    ∃ r2, List.lookup sid (applyOp op st).submissions = some r2 ∧
      r2.status = Status.complete := by
  cases op with
  | create tok vmk vmd yr sid2 ca =>
    simp only [applyOp]
    unfold create_submission
    cases hdup : st.submissions.any (fun p => p.1 == sid2) with
    | true => exact ⟨r, hr, hc⟩
    | false => exact ⟨r, lookup_append_some sid _ _ r hr, hc⟩
  | report sid2 =>
    obtain ⟨hs, _⟩ := report_preserves_tables st sid2
    simp only [applyOp]
    rw [hs]
    exact ⟨r, hr, hc⟩
  | upload sid2 it b fn fsw chat iid =>
    simp only [applyOp]
    cases hk : isKnownCategory it with
    | false =>
      rw [upload_image_eq_of_unknown st sid2 it b fn fsw chat iid hk]
      exact ⟨r, hr, hc⟩
    | true =>
      cases fsw with
      | error e =>
        rw [upload_image_eq_of_fsError st sid2 it b fn e chat iid hk]
        exact ⟨r, hr, hc⟩
      | ok u =>
        cases u
        cases hdup : st.images.any (fun x => x.id == iid) with
        | true =>
          rw [upload_image_eq_of_dup st sid2 it b fn chat iid hk hdup]
          exact ⟨r, hr, hc⟩
        | false =>
          rw [upload_image_eq_of_fresh st sid2 it b fn chat iid hk hdup]
          exact lookup_recomputeStatus_complete _ sid2 sid r hr hc

/-- Witness for C6: one more front upload keeps the completed demo submission
complete. -/
theorem complete_status_terminal_witness :
    ∃ r2, List.lookup "s1"
        (applyOp (Op.upload "s1" "front" [9] "z.jpg" (Except.ok ()) chatYes "i9") demoSt8).submissions =
        some r2 ∧ r2.status = Status.complete :=
  complete_status_terminal (Op.upload "s1" "front" [9] "z.jpg" (Except.ok ()) chatYes "i9")
    demoSt8 "s1" ⟨"tok", "Toyota", "Corolla", 2020, Status.complete, "2024-01-01"⟩
    (by decide) rfl

/-- C7: a second upload of an already-covered category is neither rejected nor
an update: when the generated image id is fresh the upload succeeds, appends a
brand-new SubmissionImage row carrying that id (distinct from every existing
row id), and strictly increases the row count of the submission by one. -/
theorem duplicate_category_upload_appends (st : SysState) (sid it : String)
    (b : List Nat) (fn : String) (chat : String → String → Except String String)
    (iid : String) (hk : isKnownCategory it = true)
    (hfresh : st.images.any (fun r => r.id == iid) = false) :
    ∃ v : Verdict,
      (upload_image st sid it b fn (.ok ()) chat iid).2 =
        .ok ⟨iid, v.valid, v.reason, "/uploads/" ++ storedFilename sid it fn⟩ ∧
      (upload_image st sid it b fn (.ok ()) chat iid).1.images =
        st.images ++ [⟨iid, sid, it, storedFilepath sid it fn,
          if v.valid then "yes" else "no", v.reason⟩] ∧
      countImages (upload_image st sid it b fn (.ok ()) chat iid).1 sid =
        countImages st sid + 1 ∧
      (∀ r ∈ st.images, r.id ≠ iid) := by
  have e1 := upload_image_eq_of_fresh st sid it b fn chat iid hk hfresh
  refine ⟨validate_image_with_ai chat (storedFilepath sid it fn) it, ?_, ?_, ?_, ?_⟩
  · rw [e1]
  · simp only [e1, recomputeStatus_images, recordImage_images]
  · simp only [e1]
    rw [countImages_recomputeStatus, countImages_recordImage]
    simp [countImages]
  · intro r hrm
    have hb := List.any_eq_false.mp hfresh r hrm
    simpa using hb

/-- Witness for C7: a second front upload to the demo submission appends a
second row with the new id `i2`. -/
theorem duplicate_category_upload_appends_witness :
    ∃ v : Verdict,
      (upload_image (demoUp demoSt0 "i1") "s1" "front" [4] "b.jpg" (Except.ok ())
        chatYes "i2").2 =
        .ok ⟨"i2", v.valid, v.reason, "/uploads/" ++ storedFilename "s1" "front" "b.jpg"⟩ ∧
      (upload_image (demoUp demoSt0 "i1") "s1" "front" [4] "b.jpg" (Except.ok ())
        chatYes "i2").1.images =
        (demoUp demoSt0 "i1").images ++ [⟨"i2", "s1", "front",
          storedFilepath "s1" "front" "b.jpg",
          if v.valid then "yes" else "no", v.reason⟩] ∧
      countImages (upload_image (demoUp demoSt0 "i1") "s1" "front" [4] "b.jpg"
        (Except.ok ()) chatYes "i2").1 "s1" =
        countImages (demoUp demoSt0 "i1") "s1" + 1 ∧
      (∀ r ∈ (demoUp demoSt0 "i1").images, r.id ≠ "i2") :=
  duplicate_category_upload_appends (demoUp demoSt0 "i1") "s1" "front" [4] "b.jpg"
    chatYes "i2" (by decide) (by decide)

/-- C8: when persisting the uploaded bytes fails, the upload of a known
category aborts with the raised error, the whole state (database rows
included) is unchanged, and the outcome is the same for every classifier
collaborator, so the classifier is never consulted on the unpersisted bytes. -/
theorem storage_failure_aborts (st : SysState) (sid it : String) (b : List Nat)
    (fn e : String) (chat chat2 : String → String → Except String String)
    (iid : String) (hk : isKnownCategory it = true) :
    upload_image st sid it b fn (.error e) chat iid = (st, .serverError e) ∧
    upload_image st sid it b fn (.error e) chat iid =
      upload_image st sid it b fn (.error e) chat2 iid := by
  refine ⟨upload_image_eq_of_fsError st sid it b fn e chat iid hk, ?_⟩
  rw [upload_image_eq_of_fsError st sid it b fn e chat iid hk,
    upload_image_eq_of_fsError st sid it b fn e chat2 iid hk]

/-- Witness for C8: a failing disk write aborts the demo upload unchanged,
identically for two different classifier collaborators. -/
theorem storage_failure_aborts_witness :
    upload_image demoSt0 "s1" "front" [1] "a.jpg" (Except.error "disk full") chatYes "i1" =
      (demoSt0, .serverError "disk full") ∧
    upload_image demoSt0 "s1" "front" [1] "a.jpg" (Except.error "disk full") chatYes "i1" =
      upload_image demoSt0 "s1" "front" [1] "a.jpg" (Except.error "disk full")
        (fun _ _ => Except.error "x") "i1" :=
  storage_failure_aborts demoSt0 "s1" "front" [1] "a.jpg" "disk full" chatYes
    (fun _ _ => Except.error "x") "i1" (by decide)

/-- C9: the stored path depends only on submission id, category and filename
extension, so two same-category uploads with equal extensions collide: after
the second upload the shared path holds the second upload's bytes while both
appended rows reference that same path. -/
theorem same_category_upload_overwrites (st : SysState) (sid it : String)
    (b1 b2 : List Nat) (fn1 fn2 : String)
    (chat1 chat2 : String → String → Except String String) (iid1 iid2 : String)
    (hk : isKnownCategory it = true)
    (hext : splitextExt fn1 = splitextExt fn2)
    (hfresh1 : st.images.any (fun r => r.id == iid1) = false)
    (hfresh2 : st.images.any (fun r => r.id == iid2) = false)
    (hne : iid1 ≠ iid2) :
    storedFilepath sid it fn2 = storedFilepath sid it fn1 ∧
    List.lookup (storedFilepath sid it fn1)
      ((upload_image ((upload_image st sid it b1 fn1 (.ok ()) chat1 iid1).1)
        sid it b2 fn2 (.ok ()) chat2 iid2).1).files = some b2 ∧
    ∃ v1 v2 : Verdict,
      ((upload_image ((upload_image st sid it b1 fn1 (.ok ()) chat1 iid1).1)
        sid it b2 fn2 (.ok ()) chat2 iid2).1).images =
        st.images ++ [⟨iid1, sid, it, storedFilepath sid it fn1,
            if v1.valid then "yes" else "no", v1.reason⟩,
          ⟨iid2, sid, it, storedFilepath sid it fn1,
            if v2.valid then "yes" else "no", v2.reason⟩] := by
  have hpath : storedFilepath sid it fn2 = storedFilepath sid it fn1 := by
    unfold storedFilepath storedFilename
    rw [hext]
  have e1 := upload_image_eq_of_fresh st sid it b1 fn1 chat1 iid1 hk hfresh1
  have hfresh2' : ((upload_image st sid it b1 fn1 (.ok ()) chat1 iid1).1).images.any
      (fun r => r.id == iid2) = false := by
    simp only [e1, recomputeStatus_images, recordImage_images, List.any_append,
      List.any_cons, List.any_nil, Bool.or_false]
    rw [hfresh2]
    simp only [Bool.false_or]
    exact beq_false_of_ne hne
  have e2 := upload_image_eq_of_fresh ((upload_image st sid it b1 fn1 (.ok ()) chat1 iid1).1)
    sid it b2 fn2 chat2 iid2 hk hfresh2'
  refine ⟨hpath, ?_, ?_⟩
  · simp only [e2, recomputeStatus_files, recordImage_files]
    rw [hpath]
    exact lookup_writeFile_self _ _ _
  · refine ⟨validate_image_with_ai chat1 (storedFilepath sid it fn1) it,
      validate_image_with_ai chat2 (storedFilepath sid it fn2) it, ?_⟩
    simp only [e2, recomputeStatus_images, recordImage_images]
    simp only [e1, recomputeStatus_images, recordImage_images]
    rw [hpath, List.append_assoc]
    rfl

/-- Witness for C9: two front uploads with `.jpg` filenames collide on
`uploads/s1_front.jpg`; the stored bytes are those of the second upload. -/
theorem same_category_upload_overwrites_witness :
    storedFilepath "s1" "front" "b.jpg" = storedFilepath "s1" "front" "a.jpg" ∧
    List.lookup (storedFilepath "s1" "front" "a.jpg")
      ((upload_image ((upload_image demoSt0 "s1" "front" [1] "a.jpg" (.ok ())
        chatYes "i1").1) "s1" "front" [2] "b.jpg" (.ok ()) chatYes "i2").1).files =
      some [2] ∧
    ∃ v1 v2 : Verdict,
      ((upload_image ((upload_image demoSt0 "s1" "front" [1] "a.jpg" (.ok ())
        chatYes "i1").1) "s1" "front" [2] "b.jpg" (.ok ()) chatYes "i2").1).images =
        demoSt0.images ++ [⟨"i1", "s1", "front", storedFilepath "s1" "front" "a.jpg",
            if v1.valid then "yes" else "no", v1.reason⟩,
          ⟨"i2", "s1", "front", storedFilepath "s1" "front" "a.jpg",
            if v2.valid then "yes" else "no", v2.reason⟩] :=
  same_category_upload_overwrites demoSt0 "s1" "front" [1] [2] "a.jpg" "b.jpg"
    chatYes chatYes "i1" "i2" (by decide) (by decide) (by decide) (by decide) (by decide)

/-- C10: uploading a known category to a submission id with no Submissions row
still succeeds end to end: it returns the classifier verdict, inserts a
SubmissionImage row referencing the nonexistent submission, stores the bytes,
and leaves the submissions table exactly as it was (the status update matches
no row). -/
theorem upload_missing_submission_succeeds (st : SysState) (sid it : String)
    (b : List Nat) (fn : String) (chat : String → String → Except String String)
    (iid : String)
    (hmissing : List.lookup sid st.submissions = none)
    (hk : isKnownCategory it = true)
    (hfresh : st.images.any (fun r => r.id == iid) = false) :
    (upload_image st sid it b fn (.ok ()) chat iid).2 =
      .ok ⟨iid, (validate_image_with_ai chat (storedFilepath sid it fn) it).valid,
        (validate_image_with_ai chat (storedFilepath sid it fn) it).reason,
        "/uploads/" ++ storedFilename sid it fn⟩ ∧
    (upload_image st sid it b fn (.ok ()) chat iid).1.submissions = st.submissions ∧
    (upload_image st sid it b fn (.ok ()) chat iid).1.images =
      st.images ++ [⟨iid, sid, it, storedFilepath sid it fn,
        if (validate_image_with_ai chat (storedFilepath sid it fn) it).valid then "yes"
          else "no",
        (validate_image_with_ai chat (storedFilepath sid it fn) it).reason⟩] ∧
    List.lookup (storedFilepath sid it fn)
      (upload_image st sid it b fn (.ok ()) chat iid).1.files = some b := by
  have e1 := upload_image_eq_of_fresh st sid it b fn chat iid hk hfresh
  refine ⟨?_, ?_, ?_, ?_⟩
  · rw [e1]
  · simp only [e1]
    refine Eq.trans (recomputeStatus_submissions_of_missing _ sid ?_) rfl
    exact hmissing
  · simp only [e1, recomputeStatus_images, recordImage_images]
  · simp only [e1, recomputeStatus_files, recordImage_files]
    exact lookup_writeFile_self _ _ _

/-- Witness for C10: uploading to the never-created id `ghost` on a fresh
database succeeds with a valid verdict, leaves the submissions table empty,
and stores the bytes. -/
theorem upload_missing_submission_succeeds_witness :
    (upload_image initState "ghost" "front" [7] "x.png" (Except.ok ()) chatYes "g1").2 =
      .ok ⟨"g1", true, "Valid image", "/uploads/ghost_front.png"⟩ ∧
    (upload_image initState "ghost" "front" [7] "x.png" (Except.ok ()) chatYes "g1").1.submissions = [] ∧
    List.lookup (storedFilepath "ghost" "front" "x.png")
      (upload_image initState "ghost" "front" [7] "x.png" (Except.ok ()) chatYes "g1").1.files =
      some [7] := by
  obtain ⟨h1, h2, h3, h4⟩ := upload_missing_submission_succeeds initState "ghost" "front"
    [7] "x.png" chatYes "g1" rfl (by decide) (by decide)
  refine ⟨?_, ?_, h4⟩
  · rw [h1]
    decide
  · rw [h2]
    rfl

end AIModel
